import Mathlib

/-!
Shallow embedding of the ingestion job in src/ingest-car-data/main.py.

Part 1: the configuration document model and secret-aware resolution
(`_build_config_with_secrets`, `_get_secret`).
Part 2: the ingestion pipeline (per-vehicle row building in `main`,
`_insert_into_bigquery`).
Part 3: the initialization phase of `main` (the try/except block).

Numeric telemetry values are modelled as exact rationals; secret payloads
are modelled as the string obtained after UTF-8 decoding.
-/

/-- JSON-like values, the shape of entries in the configuration document. -/
inductive JValue : Type
  | str (s : String)
  | num (q : ℚ)
  | bool (b : Bool)
  | null
  | arr (items : List JValue)
  | obj (fields : List (String × JValue))

/-- One entry of the connectors list.  `config` is present when the connector
dict has a config key; `rest` holds the remaining keys of the connector
dict, which resolution never touches. -/
structure Connector where
  config : Option (List (String × JValue))
  rest : List (String × JValue)

/-- The value under the carConnectivity key of the document. -/
structure CarConnectivitySection where
  connectors : Option (List Connector)
  rest : List (String × JValue)

/-- A loaded configuration document. -/
structure ConfigDoc where
  carConnectivity : Option CarConnectivitySection
  rest : List (String × JValue)

/-- Python str.startswith, via the character list of the string. -/
def pyStartsWith (s pre : String) : Bool :=
  pre.data.isPrefixOf s.data

/-- Characters of a string strictly after its first colon. -/
def dropThroughFirstColon : List Char → List Char
  | [] => []
  | c :: cs => if c = ':' then cs else dropThroughFirstColon cs

/-- Python value.split(colon, 1)[1] on a string that contains a colon:
the substring after the first colon separator. -/
def pySplitRest (s : String) : String :=
  ⟨dropThroughFirstColon s.data⟩

/-- Python str.strip: remove leading and trailing whitespace. -/
def pyStrip (s : String) : String :=
  ⟨((s.data.dropWhile Char.isWhitespace).reverse.dropWhile Char.isWhitespace).reverse⟩

/-- A secret-store fetch failure. -/
structure SecretErr where
  msg : String
deriving DecidableEq

/-- The fully qualified secret version name built by `_get_secret`. -/
def secretVersionName (projectId secretId : String) : String :=
  "projects/" ++ projectId ++ "/secrets/" ++ secretId ++ "/versions/latest"

/-- Embedding of `_get_secret`: fetch the latest version of the secret from
the store, decode as text and strip whitespace.  The store is a parameter
mapping fully qualified names to results. -/
def getSecret (store : String → Except SecretErr String)
    (projectId secretId : String) : Except SecretErr String :=
  (store (secretVersionName projectId secretId)).map pyStrip

/-- Sequential effectful map over a list: the embedding of a Python for
loop whose body may raise, aborting the whole loop at the first error. -/
def mapE {α β ε : Type} (f : α → Except ε β) : List α → Except ε (List β)
  | [] => .ok []
  | x :: xs => do
    let y ← f x
    let ys ← mapE f xs
    .ok (y :: ys)

/-- Resolution of one settings value: a string beginning with the
secret-reference marker is replaced by the fetched, stripped secret; any
other value is left as loaded. -/
def resolveValue (store : String → Except SecretErr String)
    (projectId : String) : JValue → Except SecretErr JValue
  | .str s =>
    if pyStartsWith s "SECRET:" then
      (getSecret store projectId (pySplitRest s)).map JValue.str
    else .ok (.str s)
  | v => .ok v

/-- Resolution of one (key, value) pair of a connector's config mapping. -/
def resolveEntry (store : String → Except SecretErr String)
    (projectId : String) (kv : String × JValue) :
    Except SecretErr (String × JValue) :=
  (resolveValue store projectId kv.2).map (fun v => (kv.1, v))

/-- Resolution of one connector: a connector without a config key is left
untouched; otherwise each entry of its config mapping is resolved. -/
def resolveConnector (store : String → Except SecretErr String)
    (projectId : String) (c : Connector) : Except SecretErr Connector :=
  match c.config with
  | none => .ok c
  | some entries =>
    (mapE (resolveEntry store projectId) entries).map
      (fun es => ⟨some es, c.rest⟩)

/-- Embedding of `_build_config_with_secrets` on an already-loaded document:
when the carConnectivity section and its connectors list are present, each
connector's config mapping has its secret references replaced; otherwise
the document is returned unchanged. -/
def buildConfigWithSecrets (store : String → Except SecretErr String)
    (projectId : String) (doc : ConfigDoc) : Except SecretErr ConfigDoc :=
  match doc.carConnectivity with
  | none => .ok doc
  | some cc =>
    match cc.connectors with
    | none => .ok doc
    | some cs =>
      (mapE (resolveConnector store projectId) cs).map
        (fun cs2 => ⟨some ⟨some cs2, cc.rest⟩, doc.rest⟩)

/-- Predicate: the value is a string in secret-reference form. -/
def secretRefStr (v : JValue) : Prop :=
  ∃ s, v = .str s ∧ pyStartsWith s "SECRET:" = true

/-- The fully qualified name fetched for a config entry, when the entry's
value is a secret reference. -/
def entryRefName (projectId : String) (kv : String × JValue) : Option String :=
  match kv.2 with
  | .str s =>
    if pyStartsWith s "SECRET:" then
      some (secretVersionName projectId (pySplitRest s))
    else none
  | _ => none

/-- All fully qualified secret names referenced at the top level of any
connector's config mapping. -/
def connectorRefNames (projectId : String) (c : Connector) : List String :=
  match c.config with
  | none => []
  | some entries => entries.filterMap (entryRefName projectId)

/-- All fully qualified secret names referenced anywhere in the document's
connectors, at the one level resolution inspects. -/
def docRefNames (projectId : String) (doc : ConfigDoc) : List String :=
  match doc.carConnectivity with
  | none => []
  | some cc =>
    match cc.connectors with
    | none => []
    | some cs => (cs.map (connectorRefNames projectId)).flatten

/-- Relation between an original config entry and its resolved form that
records how secret references are replaced: the key is kept; a value in
secret-reference form is replaced by the fetched, stripped secret; and the
resolved value is itself in secret-reference form only when it is the
stripped fetch of a referenced secret that begins with the marker. -/
def entryRefResolved (store : String → Except SecretErr String)
    (projectId : String) (kv kv' : String × JValue) : Prop :=
  kv'.1 = kv.1 ∧
  (∀ s, kv.2 = .str s → pyStartsWith s "SECRET:" = true →
    ∃ raw, store (secretVersionName projectId (pySplitRest s)) = .ok raw ∧
      kv'.2 = .str (pyStrip raw)) ∧
  (∀ s', kv'.2 = .str s' → pyStartsWith s' "SECRET:" = true →
    ∃ s raw, kv.2 = .str s ∧ pyStartsWith s "SECRET:" = true ∧
      store (secretVersionName projectId (pySplitRest s)) = .ok raw ∧
      s' = pyStrip raw)

/-- Relation between an original config entry and its resolved form that
records the frame condition: an entry whose value is not a top-level
secret-reference string is left exactly as loaded. -/
def entryNonRefUnchanged (kv kv' : String × JValue) : Prop :=
  kv'.1 = kv.1 ∧ (¬ secretRefStr kv.2 → kv'.2 = kv.2)

/-!
Part 2: the ingestion pipeline.  A vehicle snapshot carries the sub-objects
that `main` reads.  Sub-objects `main` accesses unguarded (odometer,
charging, connection_state, outside_temperature, state) are required: when
absent, the attribute access raises.  The electric-drive and position
sub-objects are guarded in the source and therefore optional.
-/

/-- The odometer sub-object; its value attribute. -/
structure Odometer where
  value : ℚ
deriving DecidableEq

/-- The electric drive returned by get_electric_drive; level.value. -/
structure ElectricDrive where
  level_value : ℚ
deriving DecidableEq

/-- The charging sub-object: power.value, type.value.value, state.value.value. -/
structure Charging where
  power_value : ℚ
  type_value : String
  state_value : String
deriving DecidableEq

/-- The connection_state attribute: value.value. -/
structure ConnectionState where
  value_value : String
deriving DecidableEq

/-- The outside_temperature attribute: its value in Kelvin. -/
structure OutsideTemperature where
  value : ℚ
deriving DecidableEq

/-- The vehicle state attribute: value.value. -/
structure VehicleState where
  value_value : String
deriving DecidableEq

/-- The position sub-object: latitude.value and longitude.value. -/
structure Position where
  latitude_value : ℚ
  longitude_value : ℚ
deriving DecidableEq

/-- One vehicle snapshot as read by the row-building loop of `main`. -/
structure Vehicle where
  vin_value : String
  odometer : Option Odometer
  electric_drive : Option ElectricDrive
  charging : Option Charging
  connection_state : Option ConnectionState
  outside_temperature : Option OutsideTemperature
  position : Option Position
  state : Option VehicleState
deriving DecidableEq

/-- A Python-level error raised while building rows: an unguarded attribute
access on a missing sub-object. -/
inductive PyError : Type
  | attributeMissing (objName : String)
deriving DecidableEq

/-- Unguarded access to a sub-object: raises when the sub-object is absent. -/
def requireAttr {α : Type} (objName : String) : Option α → Except PyError α
  | some a => .ok a
  | none => .error (.attributeMissing objName)

/-- The flat normalized row built for one vehicle. -/
structure Row where
  ingestion_timestamp : String
  vehicle_id : String
  mileage : ℚ
  soc : Option ℚ
  charging_power : ℚ
  charging_type : String
  is_charging : String
  is_online : String
  external_temperature : ℚ
  latitude : Option ℚ
  longitude : Option ℚ
  state : String
deriving DecidableEq

/-- Embedding of the loop body of `main`: build one row from one vehicle.
The state of charge is read through the guarded electric-drive access; the
required sub-objects are accessed unguarded, in source order; latitude and
longitude are read through the guarded position access; the external
temperature is converted from Kelvin by subtracting 273.15. -/
def buildRow (ingestion_ts : String) (v : Vehicle) : Except PyError Row := do
  let soc : Option ℚ := v.electric_drive.map ElectricDrive.level_value
  let odo ← requireAttr "odometer" v.odometer
  let ch ← requireAttr "charging" v.charging
  let conn ← requireAttr "connection_state" v.connection_state
  let temp ← requireAttr "outside_temperature" v.outside_temperature
  let vstate ← requireAttr "state" v.state
  .ok
    { ingestion_timestamp := ingestion_ts
      vehicle_id := v.vin_value
      mileage := odo.value
      soc := soc
      charging_power := ch.power_value
      charging_type := ch.type_value
      is_charging := ch.state_value
      is_online := conn.value_value
      external_temperature := temp.value - 273.15
      latitude := v.position.map Position.latitude_value
      longitude := v.position.map Position.longitude_value
      state := vstate.value_value }

/-- All sub-objects that `main` accesses without a guard are present. -/
def requiredPresent (v : Vehicle) : Prop :=
  v.odometer.isSome = true ∧ v.charging.isSome = true ∧
  v.connection_state.isSome = true ∧ v.outside_temperature.isSome = true ∧
  v.state.isSome = true

instance (v : Vehicle) : Decidable (requiredPresent v) := by
  unfold requiredPresent; infer_instance

/-- One per-row error reported by the analytical store. -/
structure RowError where
  detail : String
deriving DecidableEq

/-- The fixed dataset name. -/
def BIGQUERY_DATASET : String := "car_data"

/-- The fixed table name. -/
def BIGQUERY_TABLE : String := "vehicle_status"

/-- The three-part table identifier used by `_insert_into_bigquery`. -/
def tableIdOf (projectId : String) : String :=
  projectId ++ "." ++ BIGQUERY_DATASET ++ "." ++ BIGQUERY_TABLE

/-- What `_insert_into_bigquery` logs. -/
inductive InsertLog : Type
  | noRows
  | success (rowCount : Nat) (tableId : String)
  | errorsLogged (message : String) (errors : List RowError)
deriving DecidableEq

/-- Embedding of `_insert_into_bigquery`.  The store's insert call is the
parameter bq, returning the per-row error list.  An empty batch skips the
call; a non-empty error list is logged as a structured error record; the
function returns normally in every case (the ok of the Except encodes that
no exception is raised). -/
def insertIntoBigquery (projectId : String) (rows : List Row)
    (bq : List Row → List RowError) : Except PyError InsertLog :=
  if rows.isEmpty then .ok .noRows
  else
    let errors := bq rows
    if errors.isEmpty then .ok (.success rows.length (tableIdOf projectId))
    else .ok (.errorsLogged "BigQuery insert errors" errors)

/-- The phase of `main` after initialization: build one row per vehicle in
list order (aborting the whole loop at the first unguarded access failure)
and submit the accumulated batch.  Returns the submitted batch and the
insert log on success. -/
def runPipeline (projectId ingestion_ts : String) (vehicles : List Vehicle)
    (bq : List Row → List RowError) : Except PyError (List Row × InsertLog) := do
  let rows ← mapE (buildRow ingestion_ts) vehicles
  let log ← insertIntoBigquery projectId rows bq
  .ok (rows, log)

/-!
Part 3: the initialization phase of `main` (the try/except block).  Each
step's outcome is a parameter; the try body runs them strictly in sequence,
with the two early returns for a missing garage and an empty vehicle list.
-/

/-- A Python exception as observed by the handler: its type name and text. -/
structure PyExc where
  typeName : String
  text : String
deriving DecidableEq

/-- The structured JSON error record printed by the handler. -/
structure ErrorRecord where
  severity : String
  message : String
  exception_type : String
  error : String
deriving DecidableEq

/-- Outcomes of the individual steps executed inside the try block. -/
structure InitEnv where
  configResult : Except PyExc ConfigDoc
  ccInitResult : Except PyExc Unit
  fetchAllResult : Except PyExc Unit
  garageResult : Except PyExc (Option Unit)
  vehiclesResult : Except PyExc (List Vehicle)

/-- How the try body ends when no exception is raised. -/
inductive InitBody : Type
  | noGarage
  | noVehicles
  | proceed (cfg : ConfigDoc) (vehicles : List Vehicle)

/-- The body of the try block: config build (including secret fetches),
client construction, fetch_all, garage retrieval, vehicle listing, with the
two early returns. -/
def tryBody (env : InitEnv) : Except PyExc InitBody := do
  let cfg ← env.configResult
  let _ ← env.ccInitResult
  let _ ← env.fetchAllResult
  let g ← env.garageResult
  match g with
  | none => .ok .noGarage
  | some _ => do
    let vs ← env.vehiclesResult
    if vs.isEmpty then .ok .noVehicles
    else .ok (.proceed cfg vs)

/-- The single structured record the handler prints for an exception. -/
def initErrorRecord (e : PyExc) : ErrorRecord :=
  ⟨"ERROR", "Failed during initialization or data fetch", e.typeName, e.text⟩

/-- The observable outcome of the initialization phase: either the handler
logged one record and re-raised the exception, or the body returned. -/
inductive InitOutcome : Type
  | loggedAndRaised (log : ErrorRecord) (exc : PyExc)
  | returned (body : InitBody)

/-- Embedding of the try/except around the initialization phase of `main`:
any exception from the body is logged once as a structured record and then
re-raised unchanged. -/
def initPhase (env : InitEnv) : InitOutcome :=
  match tryBody env with
  | .error e => .loggedAndRaised (initErrorRecord e) e
  | .ok b => .returned b

/-!
Concrete objects used to evaluate the development on explicit inputs.
-/

/-- A store that answers every fetch with a padded secret. -/
def exStoreOk : String → Except SecretErr String := fun _ => .ok "  hunter2  "

/-- A store whose every fetch fails. -/
def exStoreFail : String → Except SecretErr String :=
  fun _ => .error ⟨"permission denied"⟩

/-- A store whose fetched secret is itself in secret-reference form. -/
def cexStore : String → Except SecretErr String := fun _ => .ok "SECRET:pw"

/-- A connector with one secret reference and one literal setting. -/
def exConnector : Connector :=
  ⟨some [("password", .str "SECRET:db-pass"), ("user", .str "alice")], []⟩

/-- A document with one connector. -/
def exDoc : ConfigDoc := ⟨some ⟨some [exConnector], []⟩, []⟩

/-- A document whose only secret reference names db-pass with content in
secret-reference form. -/
def cexDoc : ConfigDoc :=
  ⟨some ⟨some [⟨some [("password", .str "SECRET:pw")], []⟩], []⟩, []⟩

/-- The fully qualified name of the one secret exDoc references. -/
def exName0 : String := secretVersionName "proj" "db-pass"

/-- A store defined everywhere. -/
def exStoreA : String → Except SecretErr String := fun _ => .ok "x"

/-- A store that agrees with exStoreA exactly on exName0. -/
def exStoreB : String → Except SecretErr String :=
  fun n => if n = exName0 then .ok "x" else .error ⟨"absent"⟩

/-- A vehicle snapshot with every sub-object present. -/
def exVehicleFull : Vehicle :=
  ⟨"WVWZZZ1", some ⟨12345⟩, some ⟨80⟩, some ⟨11, "ac", "charging"⟩,
   some ⟨"online"⟩, some ⟨300⟩, some ⟨52.5, 13.4⟩, some ⟨"parked"⟩⟩

/-- The row built from exVehicleFull at timestamp ts0. -/
def exRowFull : Row :=
  ⟨"ts0", "WVWZZZ1", 12345, some 80, 11, "ac", "charging", "online",
   (300 : ℚ) - 273.15, some 52.5, some 13.4, "parked"⟩

/-- A vehicle snapshot with all required sub-objects but neither an
electric drive nor a position. -/
def exVehicleBare : Vehicle :=
  ⟨"VINBARE", some ⟨500⟩, none, some ⟨0, "none", "off"⟩,
   some ⟨"offline"⟩, some ⟨280⟩, none, some ⟨"parked"⟩⟩

/-- A vehicle snapshot missing the required odometer sub-object. -/
def exVehicleMissing : Vehicle :=
  ⟨"VINMISS", none, none, none, none, none, none, none⟩

/-- An insert call that reports no per-row errors. -/
def exBqEmpty : List Row → List RowError := fun _ => []

/-- An insert call that reports one error per submitted row. -/
def exBqAllFail : List Row → List RowError :=
  fun rows => rows.map (fun _ => ⟨"row rejected"⟩)

/-- An initialization exception. -/
def exExc : PyExc := ⟨"FileNotFoundError", "config.json"⟩

/-- An initialization environment whose config step raises exExc. -/
def exEnvFail : InitEnv := ⟨.error exExc, .ok (), .ok (), .ok (some ()), .ok []⟩

/-!
Helper lemmas.
-/

/-- Bind on an ok Except value applies the continuation. -/
theorem except_bind_ok {ε α β : Type} (a : α) (f : α → Except ε β) :
    (Except.ok a >>= f : Except ε β) = f a := rfl

/-- Bind on an error Except value keeps the error. -/
theorem except_bind_error {ε α β : Type} (e : ε) (f : α → Except ε β) :
    (Except.error e >>= f : Except ε β) = .error e := rfl

/-- mapE succeeds exactly when every element maps ok, elementwise in order. -/
theorem mapE_ok_iff {α β ε : Type} (f : α → Except ε β) :
    ∀ (l : List α) (ys : List β),
      mapE f l = .ok ys ↔ List.Forall₂ (fun x y => f x = .ok y) l ys := by
  intro l
  induction l with
  | nil =>
    intro ys
    cases ys <;> simp [mapE]
  | cons x xs ih =>
    intro ys
    cases hfx : f x with
    | error e =>
      simp only [mapE, hfx, except_bind_error]
      constructor
      · intro h; cases h
      · rintro (_ | ⟨hr, _⟩)
        rw [hfx] at hr; cases hr
    | ok y =>
      simp only [mapE, hfx, except_bind_ok]
      cases hrest : mapE f xs with
      | error e =>
        simp only [hrest, except_bind_error]
        constructor
        · intro h; cases h
        · rintro (_ | ⟨-, hall⟩)
          have := (ih _).mpr hall
          rw [hrest] at this; cases this
      | ok zs =>
        simp only [hrest, except_bind_ok]
        constructor
        · intro h
          cases h
          exact List.Forall₂.cons hfx ((ih _).mp hrest)
        · rintro (_ | ⟨hr, hall⟩)
          rw [hfx] at hr
          cases hr
          have := (ih _).mpr hall
          rw [hrest] at this
          cases this
          rfl

/-- A Forall₂ pairs every member of the left list with a member of the
right list. -/
theorem forall2_exists_of_mem {α β : Type} {R : α → β → Prop}
    {l : List α} {ys : List β} (h : List.Forall₂ R l ys) {x : α}
    (hx : x ∈ l) : ∃ y, y ∈ ys ∧ R x y := by
  induction h with
  | nil => cases hx
  | cons hr htail ih =>
    rcases List.mem_cons.mp hx with rfl | hx2
    · exact ⟨_, List.mem_cons_self _ _, hr⟩
    · rcases ih hx2 with ⟨y, hy, hr2⟩
      exact ⟨y, List.mem_cons_of_mem _ hy, hr2⟩

/-- If some element of the list fails to map, mapE does not succeed. -/
theorem mapE_error_of_mem {α β ε : Type} (f : α → Except ε β)
    {l : List α} {x : α} (hx : x ∈ l) (hfail : ∀ y, f x ≠ .ok y) :
    ∃ e, mapE f l = .error e := by
  cases hres : mapE f l with
  | error e => exact ⟨e, rfl⟩
  | ok ys =>
    rcases forall2_exists_of_mem ((mapE_ok_iff f l ys).mp hres) hx with ⟨y, -, hr⟩
    exact absurd hr (hfail y)

/-- Full characterization of a successful row build: all five unguarded
sub-objects are present and the row is, field by field, the extraction that
the loop body of `main` performs. -/
theorem buildRow_ok_iff (ts : String) (v : Vehicle) (r : Row) :
    buildRow ts v = .ok r ↔
      ∃ o ch conn temp vst,
        v.odometer = some o ∧ v.charging = some ch ∧
        v.connection_state = some conn ∧ v.outside_temperature = some temp ∧
        v.state = some vst ∧
        r = ⟨ts, v.vin_value, o.value,
             v.electric_drive.map ElectricDrive.level_value,
             ch.power_value, ch.type_value, ch.state_value, conn.value_value,
             temp.value - 273.15, v.position.map Position.latitude_value,
             v.position.map Position.longitude_value, vst.value_value⟩ := by
  cases ho : v.odometer with
  | none => simp [buildRow, requireAttr, ho, except_bind_error]
  | some o =>
    cases hc : v.charging with
    | none => simp [buildRow, requireAttr, ho, hc, except_bind_ok, except_bind_error]
    | some ch =>
      cases hcs : v.connection_state with
      | none => simp [buildRow, requireAttr, ho, hc, hcs, except_bind_ok, except_bind_error]
      | some conn =>
        cases ht : v.outside_temperature with
        | none => simp [buildRow, requireAttr, ho, hc, hcs, ht, except_bind_ok, except_bind_error]
        | some temp =>
          cases hs : v.state with
          | none => simp [buildRow, requireAttr, ho, hc, hcs, ht, hs, except_bind_ok, except_bind_error]
          | some vst =>
            simp only [buildRow, requireAttr, ho, hc, hcs, ht, hs, except_bind_ok]
            constructor
            · intro h
              cases h
              exact ⟨o, ch, conn, temp, vst, rfl, rfl, rfl, rfl, rfl, rfl⟩
            · rintro ⟨o2, ch2, conn2, temp2, vst2, h1, h2, h3, h4, h5, rfl⟩
              cases h1; cases h2; cases h3; cases h4; cases h5
              rfl

/-- A vehicle whose row build succeeds has all required sub-objects; a
vehicle with all required sub-objects has a successful row build. -/
theorem buildRow_ok_of_requiredPresent (ts : String) (v : Vehicle)
    (h : requiredPresent v) : ∃ r, buildRow ts v = .ok r := by
  rcases h with ⟨h1, h2, h3, h4, h5⟩
  rcases Option.isSome_iff_exists.mp h1 with ⟨o, ho⟩
  rcases Option.isSome_iff_exists.mp h2 with ⟨ch, hc⟩
  rcases Option.isSome_iff_exists.mp h3 with ⟨conn, hcs⟩
  rcases Option.isSome_iff_exists.mp h4 with ⟨temp, ht⟩
  rcases Option.isSome_iff_exists.mp h5 with ⟨vst, hs⟩
  exact ⟨_, (buildRow_ok_iff ts v _).mpr
    ⟨o, ch, conn, temp, vst, ho, hc, hcs, ht, hs, rfl⟩⟩

/-- A vehicle missing some required sub-object never yields a row. -/
theorem buildRow_fails_of_missing (ts : String) (v : Vehicle)
    (h : ¬ requiredPresent v) : ∀ r, buildRow ts v ≠ .ok r := by
  intro r hr
  rcases (buildRow_ok_iff ts v r).mp hr with
    ⟨o, ch, conn, temp, vst, ho, hc, hcs, ht, hs, -⟩
  exact h ⟨by simp [ho], by simp [hc], by simp [hcs], by simp [ht], by simp [hs]⟩


/-- Map on an ok Except value applies the function. -/
theorem except_map_ok {ε α β : Type} (f : α → β) (a : α) :
    (Except.map f (.ok a) : Except ε β) = .ok (f a) := rfl

/-- Map on an error Except value keeps the error. -/
theorem except_map_error {ε α β : Type} (f : α → β) (e : ε) :
    (Except.map f (.error e) : Except ε β) = .error e := rfl

/-- Characterization of a successful document resolution when the
connectors list is present: the rest of the document and section are kept
and the connectors are resolved elementwise in order. -/
theorem buildConfig_ok_connectors
    (store : String → Except SecretErr String) (projectId : String)
    (doc doc' : ConfigDoc) (cc : CarConnectivitySection) (cs : List Connector)
    (hres : buildConfigWithSecrets store projectId doc = .ok doc')
    (hcc : doc.carConnectivity = some cc) (hcs : cc.connectors = some cs) :
    ∃ cs', doc' = ⟨some ⟨some cs', cc.rest⟩, doc.rest⟩ ∧
      List.Forall₂ (fun c c' => resolveConnector store projectId c = .ok c')
        cs cs' := by
  simp only [buildConfigWithSecrets, hcc, hcs] at hres
  cases hmap : mapE (resolveConnector store projectId) cs with
  | error e =>
    rw [hmap, except_map_error] at hres
    exact Except.noConfusion hres
  | ok cs' =>
    rw [hmap, except_map_ok] at hres
    cases hres
    exact ⟨cs', rfl, (mapE_ok_iff _ _ _).mp hmap⟩

/-- Characterization of a successful connector resolution when the
connector has a config mapping: the other keys are kept and the entries are
resolved elementwise in order. -/
theorem resolveConnector_ok_entries
    (store : String → Except SecretErr String) (projectId : String)
    (c c' : Connector) (entries : List (String × JValue))
    (h : resolveConnector store projectId c = .ok c')
    (hc : c.config = some entries) :
    ∃ entries', c' = ⟨some entries', c.rest⟩ ∧
      List.Forall₂ (fun kv kv' => resolveEntry store projectId kv = .ok kv')
        entries entries' := by
  simp only [resolveConnector, hc] at h
  cases hmap : mapE (resolveEntry store projectId) entries with
  | error e =>
    rw [hmap, except_map_error] at h
    exact Except.noConfusion h
  | ok es =>
    rw [hmap, except_map_ok] at h
    cases h
    exact ⟨es, rfl, (mapE_ok_iff _ _ _).mp hmap⟩

/-- A connector without a config mapping resolves to itself. -/
theorem resolveConnector_ok_no_config
    (store : String → Except SecretErr String) (projectId : String)
    (c c' : Connector) (h : resolveConnector store projectId c = .ok c')
    (hc : c.config = none) : c' = c := by
  simp only [resolveConnector, hc] at h
  cases h
  rfl

/-- A successful entry resolution satisfies the secret-replacement
relation. -/
theorem resolveEntry_ok_refResolved
    (store : String → Except SecretErr String) (projectId : String)
    (kv kv' : String × JValue)
    (h : resolveEntry store projectId kv = .ok kv') :
    entryRefResolved store projectId kv kv' := by
  rcases kv with ⟨k, v⟩
  cases v with
  | str s =>
    by_cases hpre : pyStartsWith s "SECRET:" = true
    · simp only [resolveEntry, resolveValue, getSecret, hpre, if_true] at h
      cases hstore : store (secretVersionName projectId (pySplitRest s)) with
      | error e =>
        rw [hstore, except_map_error, except_map_error, except_map_error] at h
        exact Except.noConfusion h
      | ok raw =>
        rw [hstore, except_map_ok, except_map_ok, except_map_ok] at h
        cases h
        refine ⟨rfl, ?_, ?_⟩
        · intro s2 h2
          cases h2
          intro _
          exact ⟨raw, hstore, rfl⟩
        · intro s' h' hpre'
          cases h'
          exact ⟨s, raw, rfl, hpre, hstore, rfl⟩
    · simp only [resolveEntry, resolveValue, hpre, if_false, except_map_ok] at h
      cases h
      refine ⟨rfl, ?_, ?_⟩
      · intro s2 h2
        cases h2
        intro hpre2
        exact absurd hpre2 hpre
      · intro s' h' hpre'
        cases h'
        exact absurd hpre' hpre
  | num q =>
    simp only [resolveEntry, resolveValue, except_map_ok] at h
    cases h
    refine ⟨rfl, ?_, ?_⟩
    · intro s h2 hpre2
      exact JValue.noConfusion h2
    · intro s' h' hpre'
      exact JValue.noConfusion h'
  | bool b =>
    simp only [resolveEntry, resolveValue, except_map_ok] at h
    cases h
    refine ⟨rfl, ?_, ?_⟩
    · intro s h2 hpre2
      exact JValue.noConfusion h2
    · intro s' h' hpre'
      exact JValue.noConfusion h'
  | null =>
    simp only [resolveEntry, resolveValue, except_map_ok] at h
    cases h
    refine ⟨rfl, ?_, ?_⟩
    · intro s h2 hpre2
      exact JValue.noConfusion h2
    · intro s' h' hpre'
      exact JValue.noConfusion h'
  | arr items =>
    simp only [resolveEntry, resolveValue, except_map_ok] at h
    cases h
    refine ⟨rfl, ?_, ?_⟩
    · intro s h2 hpre2
      exact JValue.noConfusion h2
    · intro s' h' hpre'
      exact JValue.noConfusion h'
  | obj fields =>
    simp only [resolveEntry, resolveValue, except_map_ok] at h
    cases h
    refine ⟨rfl, ?_, ?_⟩
    · intro s h2 hpre2
      exact JValue.noConfusion h2
    · intro s' h' hpre'
      exact JValue.noConfusion h'

/-- A successful entry resolution leaves non-reference values unchanged. -/
theorem resolveEntry_ok_nonRefUnchanged
    (store : String → Except SecretErr String) (projectId : String)
    (kv kv' : String × JValue)
    (h : resolveEntry store projectId kv = .ok kv') :
    entryNonRefUnchanged kv kv' := by
  rcases kv with ⟨k, v⟩
  cases v with
  | str s =>
    by_cases hpre : pyStartsWith s "SECRET:" = true
    · constructor
      · simp only [resolveEntry] at h
        cases hval : resolveValue store projectId (JValue.str s) with
        | error e =>
          rw [hval, except_map_error] at h
          exact Except.noConfusion h
        | ok v2 =>
          rw [hval, except_map_ok] at h
          cases h
          rfl
      · intro hnot
        exact absurd ⟨s, rfl, hpre⟩ hnot
    · simp only [resolveEntry, resolveValue, hpre, if_false, except_map_ok] at h
      cases h
      exact ⟨rfl, fun _ => rfl⟩
  | num q =>
    simp only [resolveEntry, resolveValue, except_map_ok] at h
    cases h
    exact ⟨rfl, fun _ => rfl⟩
  | bool b =>
    simp only [resolveEntry, resolveValue, except_map_ok] at h
    cases h
    exact ⟨rfl, fun _ => rfl⟩
  | null =>
    simp only [resolveEntry, resolveValue, except_map_ok] at h
    cases h
    exact ⟨rfl, fun _ => rfl⟩
  | arr items =>
    simp only [resolveEntry, resolveValue, except_map_ok] at h
    cases h
    exact ⟨rfl, fun _ => rfl⟩
  | obj fields =>
    simp only [resolveEntry, resolveValue, except_map_ok] at h
    cases h
    exact ⟨rfl, fun _ => rfl⟩

/-- A Forall₂ pairs every member of the right list with a member of the
left list. -/
theorem forall2_exists_of_mem_right {α β : Type} {R : α → β → Prop}
    {l : List α} {ys : List β} (h : List.Forall₂ R l ys) {y : β}
    (hy : y ∈ ys) : ∃ x, x ∈ l ∧ R x y := by
  induction h with
  | nil => cases hy
  | cons hr htail ih =>
    rcases List.mem_cons.mp hy with rfl | hy2
    · exact ⟨_, List.mem_cons_self _ _, hr⟩
    · rcases ih hy2 with ⟨x, hx, hr2⟩
      exact ⟨x, List.mem_cons_of_mem _ hx, hr2⟩

/-- A successfully built row carries the loop's ingestion timestamp. -/
theorem buildRow_ok_timestamp (ts : String) (v : Vehicle) (r : Row)
    (h : buildRow ts v = .ok r) : r.ingestion_timestamp = ts := by
  rcases (buildRow_ok_iff ts v r).mp h with ⟨o, ch, conn, temp, vst, -, -, -, -, -, rfl⟩
  rfl

/-- The insert helper never raises: it returns a log in every case. -/
theorem insertIntoBigquery_ok (projectId : String) (rows : List Row)
    (bq : List Row → List RowError) :
    ∃ log, insertIntoBigquery projectId rows bq = .ok log := by
  by_cases h1 : rows.isEmpty
  · exact ⟨.noRows, by simp [insertIntoBigquery, h1]⟩
  · by_cases h2 : (bq rows).isEmpty
    · exact ⟨.success rows.length (tableIdOf projectId),
        by simp [insertIntoBigquery, h1, h2]⟩
    · exact ⟨.errorsLogged "BigQuery insert errors" (bq rows),
        by simp [insertIntoBigquery, h1, h2]⟩

/-- A successful pipeline run decomposes into a successful row build and a
successful insert of exactly those rows. -/
theorem runPipeline_ok_elim (projectId ts : String) (vehicles : List Vehicle)
    (bq : List Row → List RowError) (rows : List Row) (log : InsertLog)
    (h : runPipeline projectId ts vehicles bq = .ok (rows, log)) :
    mapE (buildRow ts) vehicles = .ok rows ∧
      insertIntoBigquery projectId rows bq = .ok log := by
  unfold runPipeline at h
  cases hm : mapE (buildRow ts) vehicles with
  | error e =>
    rw [hm, except_bind_error] at h
    exact Except.noConfusion h
  | ok rows2 =>
    rw [hm, except_bind_ok] at h
    cases hi : insertIntoBigquery projectId rows2 bq with
    | error e =>
      rw [hi, except_bind_error] at h
      exact Except.noConfusion h
    | ok log2 =>
      rw [hi, except_bind_ok] at h
      injection h with h2
      injection h2 with ha hb
      subst ha
      subst hb
      exact ⟨rfl, hi⟩

/-- A list of vehicles that all have their required sub-objects builds a
full list of rows. -/
theorem mapE_buildRow_ok_of_all_present (ts : String) :
    ∀ (vs : List Vehicle), (∀ v, v ∈ vs → requiredPresent v) →
      ∃ rows, mapE (buildRow ts) vs = .ok rows := by
  intro vs
  induction vs with
  | nil => exact fun _ => ⟨[], rfl⟩
  | cons v vs2 ih =>
    intro hall
    rcases buildRow_ok_of_requiredPresent ts v (hall v (List.mem_cons_self _ _)) with ⟨r, hr⟩
    rcases ih (fun u hu => hall u (List.mem_cons_of_mem _ hu)) with ⟨rows, hrows⟩
    exact ⟨r :: rows, by simp only [mapE, hr, except_bind_ok, hrows]⟩

/-- mapE is determined by the values of the function on the list. -/
theorem mapE_congr {α β ε : Type} (f g : α → Except ε β) :
    ∀ (l : List α), (∀ x, x ∈ l → f x = g x) → mapE f l = mapE g l := by
  intro l
  induction l with
  | nil => exact fun _ => rfl
  | cons x xs ih =>
    intro hag
    have h1 : f x = g x := hag x (List.mem_cons_self _ _)
    have h2 := ih (fun u hu => hag u (List.mem_cons_of_mem _ hu))
    simp only [mapE, h1, h2]

/-- Entry resolution consults the store only at the entry's own reference
name. -/
theorem resolveEntry_congr (store1 store2 : String → Except SecretErr String)
    (projectId : String) (kv : String × JValue)
    (hag : ∀ name, entryRefName projectId kv = some name →
      store1 name = store2 name) :
    resolveEntry store1 projectId kv = resolveEntry store2 projectId kv := by
  rcases kv with ⟨k, v⟩
  cases v with
  | str s =>
    by_cases hpre : pyStartsWith s "SECRET:" = true
    · have hs := hag (secretVersionName projectId (pySplitRest s))
        (by simp [entryRefName, hpre])
      simp only [resolveEntry, resolveValue, hpre, if_true, getSecret, hs]
    · simp only [resolveEntry, resolveValue]
      rw [if_neg hpre, if_neg hpre]
  | num q => rfl
  | bool b => rfl
  | null => rfl
  | arr items => rfl
  | obj fields => rfl

/-- Connector resolution consults the store only at the connector's own
reference names. -/
theorem resolveConnector_congr
    (store1 store2 : String → Except SecretErr String) (projectId : String)
    (c : Connector)
    (hag : ∀ name, name ∈ connectorRefNames projectId c →
      store1 name = store2 name) :
    resolveConnector store1 projectId c = resolveConnector store2 projectId c := by
  cases hconf : c.config with
  | none => simp only [resolveConnector, hconf]
  | some entries =>
    have hmap : mapE (resolveEntry store1 projectId) entries =
        mapE (resolveEntry store2 projectId) entries := by
      apply mapE_congr
      intro kv hkv
      apply resolveEntry_congr
      intro name hn
      apply hag
      simp only [connectorRefNames, hconf]
      exact List.mem_filterMap.mpr ⟨kv, hkv, hn⟩
    simp only [resolveConnector, hconf, hmap]

/-- C1 (counterexample): the claim that no resolved value retains the
secret-reference form fails when the fetched secret itself begins with the
marker.  Here resolution succeeds and returns the document unchanged: the
value at the password key of the resolved document is the string
SECRET:pw, which begins with the secret-reference marker. -/
theorem secret_resolution_completeness_counterexample :
    buildConfigWithSecrets cexStore "proj" cexDoc = .ok cexDoc ∧
    cexDoc =
      ⟨some ⟨some [⟨some [("password", JValue.str "SECRET:pw")], []⟩], []⟩, []⟩ ∧
    pyStartsWith "SECRET:pw" "SECRET:" = true := by
  refine ⟨rfl, rfl, rfl⟩

/-- C1 (amended): for every configuration document, after resolution
returns, every connector config value that was a string beginning with
SECRET: holds the secret fetched from the store for the identifier after
the first colon, decoded as text and trimmed; and a resolved value is in
secret-reference form only when it is the trimmed fetch of a referenced
secret that itself begins with the marker. -/
theorem secret_resolution_completeness_amended
    (store : String → Except SecretErr String) (projectId : String)
    (doc doc' : ConfigDoc) (cc : CarConnectivitySection) (cs : List Connector)
    (hres : buildConfigWithSecrets store projectId doc = .ok doc')
    (hcc : doc.carConnectivity = some cc) (hcs : cc.connectors = some cs) :
    ∃ cs', doc' = ⟨some ⟨some cs', cc.rest⟩, doc.rest⟩ ∧
      List.Forall₂ (fun c c' =>
        ∀ entries, c.config = some entries →
          ∃ entries', c'.config = some entries' ∧
            List.Forall₂ (entryRefResolved store projectId) entries entries')
        cs cs' := by
  rcases buildConfig_ok_connectors store projectId doc doc' cc cs hres hcc hcs with
    ⟨cs', rfl, hfa⟩
  refine ⟨cs', rfl, hfa.imp ?_⟩
  intro c c' hcres entries hconf
  rcases resolveConnector_ok_entries store projectId c c' entries hcres hconf with
    ⟨entries', rfl, hfa2⟩
  exact ⟨entries', rfl,
    hfa2.imp (fun kv kv' h => resolveEntry_ok_refResolved store projectId kv kv' h)⟩

/-- C3: if any secret reference present in some connector's config mapping
has a failing store fetch, resolution returns an error and never a
document. -/
theorem resolution_fails_closed
    (store : String → Except SecretErr String) (projectId : String)
    (doc : ConfigDoc) (cc : CarConnectivitySection) (cs : List Connector)
    (hcc : doc.carConnectivity = some cc) (hcs : cc.connectors = some cs)
    (href : ∃ c, c ∈ cs ∧ ∃ entries, c.config = some entries ∧
      ∃ kv, kv ∈ entries ∧ ∃ s, kv.2 = JValue.str s ∧
        pyStartsWith s "SECRET:" = true ∧
        ∃ err, store (secretVersionName projectId (pySplitRest s)) = .error err) :
    ∃ e, buildConfigWithSecrets store projectId doc = .error e := by
  rcases href with ⟨c, hc, entries, hconf, kv, hkv, s, hs, hpre, err, hstore⟩
  have hEntryFail : ∀ y, resolveEntry store projectId kv ≠ .ok y := by
    intro y hy
    rcases kv with ⟨k, v⟩
    cases hs
    simp only [resolveEntry, resolveValue, hpre, if_true, getSecret, hstore,
      except_map_error] at hy
    exact Except.noConfusion hy
  rcases mapE_error_of_mem _ hkv hEntryFail with ⟨e2, hmap⟩
  have hConnFail : ∀ y, resolveConnector store projectId c ≠ .ok y := by
    intro y hy
    simp only [resolveConnector, hconf, hmap, except_map_error] at hy
    exact Except.noConfusion hy
  rcases mapE_error_of_mem _ hc hConnFail with ⟨e3, hmap2⟩
  exact ⟨e3, by simp only [buildConfigWithSecrets, hcc, hcs, hmap2, except_map_error]⟩

/-- C9: resolution inspects only the immediate entries of each connector's
config mapping.  First part: after a successful resolution, every entry
whose value is not a top-level secret-reference string (a non-string value,
or any string not beginning with the marker, including containers holding
nested references) is left exactly as loaded, connectors without a config
key are untouched, and all other connector keys are kept.  Second part:
resolution depends on the secret store only at the top-level reference
names, so no store call is made for nested or non-string values. -/
theorem resolution_one_level_frame :
    (∀ (store : String → Except SecretErr String) (projectId : String)
       (doc doc' : ConfigDoc) (cc : CarConnectivitySection) (cs : List Connector),
       buildConfigWithSecrets store projectId doc = .ok doc' →
       doc.carConnectivity = some cc → cc.connectors = some cs →
       ∃ cs', doc' = ⟨some ⟨some cs', cc.rest⟩, doc.rest⟩ ∧
         List.Forall₂ (fun c c' =>
           c'.rest = c.rest ∧ (c.config = none → c' = c) ∧
           ∀ entries, c.config = some entries →
             ∃ entries', c'.config = some entries' ∧
               List.Forall₂ entryNonRefUnchanged entries entries') cs cs') ∧
    (∀ (store1 store2 : String → Except SecretErr String) (projectId : String)
       (doc : ConfigDoc),
       (∀ name, name ∈ docRefNames projectId doc → store1 name = store2 name) →
       buildConfigWithSecrets store1 projectId doc =
         buildConfigWithSecrets store2 projectId doc) := by
  constructor
  · intro store projectId doc doc' cc cs hres hcc hcs
    rcases buildConfig_ok_connectors store projectId doc doc' cc cs hres hcc hcs with
      ⟨cs', rfl, hfa⟩
    refine ⟨cs', rfl, hfa.imp ?_⟩
    intro c c' hcres
    refine ⟨?_, ?_, ?_⟩
    · cases hconf : c.config with
      | none => rw [resolveConnector_ok_no_config store projectId c c' hcres hconf]
      | some entries =>
        rcases resolveConnector_ok_entries store projectId c c' entries hcres hconf with
          ⟨entries', rfl, -⟩
        rfl
    · intro hconf
      exact resolveConnector_ok_no_config store projectId c c' hcres hconf
    · intro entries hconf
      rcases resolveConnector_ok_entries store projectId c c' entries hcres hconf with
        ⟨entries', rfl, hfa2⟩
      exact ⟨entries', rfl,
        hfa2.imp (fun kv kv' h => resolveEntry_ok_nonRefUnchanged store projectId kv kv' h)⟩
  · intro store1 store2 projectId doc hag
    cases hcc : doc.carConnectivity with
    | none => simp only [buildConfigWithSecrets, hcc]
    | some cc =>
      cases hcs : cc.connectors with
      | none => simp only [buildConfigWithSecrets, hcc, hcs]
      | some cs =>
        have hmap : mapE (resolveConnector store1 projectId) cs =
            mapE (resolveConnector store2 projectId) cs := by
          apply mapE_congr
          intro c hc
          apply resolveConnector_congr
          intro name hn
          apply hag
          simp only [docRefNames, hcc, hcs]
          exact List.mem_flatten.mpr
            ⟨connectorRefNames projectId c, List.mem_map_of_mem _ hc, hn⟩
        simp only [buildConfigWithSecrets, hcc, hcs, hmap]

/-- C2: when list-vehicles is non-empty and every vehicle has all required
sub-objects, the pipeline submits exactly one row per vehicle, in
vehicle-list order: the batch pairs with the vehicle list elementwise. -/
theorem row_count_and_order (projectId ts : String) (vehicles : List Vehicle)
    (bq : List Row → List RowError) (_hne : vehicles ≠ [])
    (hall : ∀ v, v ∈ vehicles → requiredPresent v) :
    ∃ rows log, runPipeline projectId ts vehicles bq = .ok (rows, log) ∧
      rows.length = vehicles.length ∧
      List.Forall₂ (fun v r => buildRow ts v = .ok r) vehicles rows := by
  rcases mapE_buildRow_ok_of_all_present ts vehicles hall with ⟨rows, hrows⟩
  rcases insertIntoBigquery_ok projectId rows bq with ⟨log, hlog⟩
  have hfa := (mapE_ok_iff (buildRow ts) vehicles rows).mp hrows
  exact ⟨rows, log,
    by simp only [runPipeline, hrows, except_bind_ok, hlog, except_bind_ok],
    hfa.length_eq.symm, hfa⟩

/-- C5: if some vehicle in the list lacks a required sub-object, the
per-vehicle loop aborts with an error, independently of the store: the
pipeline performs no insert and no rows from earlier vehicles are
submitted. -/
theorem missing_required_subobject_aborts (projectId ts : String)
    (vehicles : List Vehicle)
    (h : ∃ v, v ∈ vehicles ∧ ¬ requiredPresent v) :
    ∃ e, ∀ bq, runPipeline projectId ts vehicles bq = .error e := by
  rcases h with ⟨v, hv, hnp⟩
  rcases mapE_error_of_mem (buildRow ts) hv (buildRow_fails_of_missing ts v hnp) with
    ⟨e, he⟩
  exact ⟨e, fun bq => by simp only [runPipeline, he, except_bind_error]⟩

/-- C4: on a non-empty batch whose insert call reports a non-empty per-row
error list, the run logs the structured error record with the message and
the full error list, and returns normally — it never raises, even if every
row failed. -/
theorem best_effort_write_logs_errors (projectId : String) (rows : List Row)
    (bq : List Row → List RowError) (hrows : rows ≠ []) (herr : bq rows ≠ []) :
    insertIntoBigquery projectId rows bq =
      .ok (.errorsLogged "BigQuery insert errors" (bq rows)) := by
  have h1 : rows.isEmpty = false := by
    cases rows with
    | nil => exact absurd rfl hrows
    | cons a l => rfl
  have h2 : (bq rows).isEmpty = false := by
    cases hh : bq rows with
    | nil => exact absurd hh herr
    | cons a l => rfl
  simp only [insertIntoBigquery, h1, Bool.false_eq_true, if_false, h2]

/-- C6: the external_temperature of every built row is the vehicle's
outside temperature minus 273.15; in particular 300 Kelvin yields 26.85. -/
theorem temperature_conversion (ts : String) (v : Vehicle) (r : Row)
    (temp : OutsideTemperature) (h : buildRow ts v = .ok r)
    (ht : v.outside_temperature = some temp) :
    r.external_temperature = temp.value - 273.15 ∧
      (temp.value = 300 → r.external_temperature = 26.85) := by
  rcases (buildRow_ok_iff ts v r).mp h with
    ⟨o, ch, conn, t2, vst, -, -, -, ht2, -, rfl⟩
  rw [ht] at ht2
  cases ht2
  constructor
  · rfl
  · intro h300
    show temp.value - 273.15 = 26.85
    rw [h300]
    norm_num

/-- C7: a vehicle with all required sub-objects always yields a row; with
no electric drive its soc is null; with no position both latitude and
longitude are null; with a position both are populated. -/
theorem optional_field_nullability (ts : String) (v : Vehicle)
    (h : requiredPresent v) :
    ∃ r, buildRow ts v = .ok r ∧
      (v.electric_drive = none → r.soc = none) ∧
      (v.position = none → r.latitude = none ∧ r.longitude = none) ∧
      (∀ p, v.position = some p →
        r.latitude = some p.latitude_value ∧
        r.longitude = some p.longitude_value) := by
  rcases buildRow_ok_of_requiredPresent ts v h with ⟨r, hr⟩
  rcases (buildRow_ok_iff ts v r).mp hr with
    ⟨o, ch, conn, temp, vst, -, -, -, -, -, rfl⟩
  refine ⟨_, hr, ?_, ?_, ?_⟩
  · intro he
    show v.electric_drive.map ElectricDrive.level_value = none
    rw [he]
    rfl
  · intro hp
    constructor
    · show v.position.map Position.latitude_value = none
      rw [hp]
      rfl
    · show v.position.map Position.longitude_value = none
      rw [hp]
      rfl
  · intro p hp
    constructor
    · show v.position.map Position.latitude_value = some p.latitude_value
      rw [hp]
      rfl
    · show v.position.map Position.longitude_value = some p.longitude_value
      rw [hp]
      rfl

/-- C8: every row of a successful run carries the single ingestion
timestamp recorded once before the loop. -/
theorem timestamp_uniformity (projectId ts : String) (vehicles : List Vehicle)
    (bq : List Row → List RowError) (rows : List Row) (log : InsertLog)
    (h : runPipeline projectId ts vehicles bq = .ok (rows, log)) :
    ∀ r, r ∈ rows → r.ingestion_timestamp = ts := by
  intro r hr
  rcases runPipeline_ok_elim projectId ts vehicles bq rows log h with ⟨hm, -⟩
  rcases forall2_exists_of_mem_right ((mapE_ok_iff _ _ _).mp hm) hr with ⟨v, -, hbuild⟩
  exact buildRow_ok_timestamp ts v r hbuild

/-- C10: any exception raised by one of the initialization steps is caught
by the single handler, logged as exactly one structured record holding the
fixed message, the exception's type name and its text, and then re-raised
unchanged. -/
theorem init_errors_logged_and_reraised (env : InitEnv) (e : PyExc)
    (h : env.configResult = .error e ∨
      ((∃ c, env.configResult = .ok c) ∧ env.ccInitResult = .error e) ∨
      ((∃ c, env.configResult = .ok c) ∧ env.ccInitResult = .ok () ∧
        env.fetchAllResult = .error e) ∨
      ((∃ c, env.configResult = .ok c) ∧ env.ccInitResult = .ok () ∧
        env.fetchAllResult = .ok () ∧ env.garageResult = .error e) ∨
      ((∃ c, env.configResult = .ok c) ∧ env.ccInitResult = .ok () ∧
        env.fetchAllResult = .ok () ∧ (∃ g, env.garageResult = .ok (some g)) ∧
        env.vehiclesResult = .error e)) :
    initPhase env = .loggedAndRaised
      ⟨"ERROR", "Failed during initialization or data fetch", e.typeName, e.text⟩ e := by
  have hbody : tryBody env = .error e := by
    rcases h with h1 | ⟨⟨c, hc⟩, h2⟩ | ⟨⟨c, hc⟩, h2, h3⟩ | ⟨⟨c, hc⟩, h2, h3, h4⟩ |
      ⟨⟨c, hc⟩, h2, h3, ⟨g, hg⟩, h5⟩
    · simp only [tryBody, h1, except_bind_error]
    · simp only [tryBody, hc, except_bind_ok, h2, except_bind_error]
    · simp only [tryBody, hc, except_bind_ok, h2, except_bind_ok, h3,
        except_bind_error]
    · simp only [tryBody, hc, except_bind_ok, h2, except_bind_ok, h3,
        except_bind_ok, h4, except_bind_error]
    · simp only [tryBody, hc, except_bind_ok, h2, except_bind_ok, h3,
        except_bind_ok, hg, except_bind_ok, h5, except_bind_error]
  simp only [initPhase, hbody]
  rfl

/-- Witness for the amended C1 theorem at a concrete store and document:
the padded secret is fetched and stored trimmed. -/
theorem secret_resolution_completeness_witness :
    ∃ cs',
      (⟨some ⟨some [⟨some [("password", JValue.str "hunter2"),
          ("user", JValue.str "alice")], []⟩], []⟩, []⟩ : ConfigDoc) =
        ⟨some ⟨some cs', []⟩, []⟩ ∧
      List.Forall₂ (fun c c' =>
        ∀ entries, c.config = some entries →
          ∃ entries', c'.config = some entries' ∧
            List.Forall₂ (entryRefResolved exStoreOk "proj") entries entries')
        [exConnector] cs' :=
  secret_resolution_completeness_amended exStoreOk "proj" exDoc
    ⟨some ⟨some [⟨some [("password", JValue.str "hunter2"),
      ("user", JValue.str "alice")], []⟩], []⟩, []⟩
    ⟨some [exConnector], []⟩ [exConnector] rfl rfl rfl

/-- Witness for C2 at one concrete vehicle with all sub-objects present. -/
theorem row_count_and_order_witness :
    ∃ rows log, runPipeline "proj" "ts0" [exVehicleFull] exBqEmpty =
        .ok (rows, log) ∧
      rows.length = [exVehicleFull].length ∧
      List.Forall₂ (fun v r => buildRow "ts0" v = .ok r) [exVehicleFull] rows :=
  row_count_and_order "proj" "ts0" [exVehicleFull] exBqEmpty
    (List.cons_ne_nil _ _)
    (fun v hv => by
      rw [List.mem_singleton] at hv
      subst hv
      decide)

/-- Witness for C3 at a store whose every fetch fails. -/
theorem resolution_fails_closed_witness :
    ∃ e, buildConfigWithSecrets exStoreFail "proj" exDoc = .error e :=
  resolution_fails_closed exStoreFail "proj" exDoc
    ⟨some [exConnector], []⟩ [exConnector] rfl rfl
    ⟨exConnector, List.mem_singleton.mpr rfl,
      [("password", JValue.str "SECRET:db-pass"), ("user", JValue.str "alice")],
      rfl, ("password", JValue.str "SECRET:db-pass"), List.mem_cons_self _ _,
      "SECRET:db-pass", rfl, rfl, ⟨"permission denied"⟩, rfl⟩

/-- Witness for C4: one row submitted, every row rejected, the record is
logged and the call returns normally. -/
theorem best_effort_write_logs_errors_witness :
    insertIntoBigquery "proj" [exRowFull] exBqAllFail =
      .ok (.errorsLogged "BigQuery insert errors" (exBqAllFail [exRowFull])) :=
  best_effort_write_logs_errors "proj" [exRowFull] exBqAllFail
    (List.cons_ne_nil _ _) (by simp [exBqAllFail])

/-- Witness for C5 at a vehicle missing its odometer sub-object. -/
theorem missing_required_subobject_aborts_witness :
    ∃ e, runPipeline "proj" "ts0" [exVehicleMissing] exBqEmpty = .error e := by
  rcases missing_required_subobject_aborts "proj" "ts0" [exVehicleMissing]
      ⟨exVehicleMissing, List.mem_singleton.mpr rfl, by decide⟩ with ⟨e, he⟩
  exact ⟨e, he exBqEmpty⟩

/-- Witness for C6 at 300 Kelvin: the row holds 26.85 Celsius. -/
theorem temperature_conversion_witness :
    exRowFull.external_temperature = 300 - 273.15 ∧
      ((300 : ℚ) = 300 → exRowFull.external_temperature = 26.85) :=
  temperature_conversion "ts0" exVehicleFull exRowFull ⟨300⟩ rfl rfl

/-- Witness for C7 at a vehicle with no electric drive and no position. -/
theorem optional_field_nullability_witness :
    ∃ r, buildRow "ts0" exVehicleBare = .ok r ∧
      (exVehicleBare.electric_drive = none → r.soc = none) ∧
      (exVehicleBare.position = none → r.latitude = none ∧ r.longitude = none) ∧
      (∀ p, exVehicleBare.position = some p →
        r.latitude = some p.latitude_value ∧
        r.longitude = some p.longitude_value) :=
  optional_field_nullability "ts0" exVehicleBare (by decide)

/-- Witness for C8 at a concrete one-vehicle run. -/
theorem timestamp_uniformity_witness :
    exRowFull.ingestion_timestamp = "ts0" :=
  timestamp_uniformity "proj" "ts0" [exVehicleFull] exBqEmpty [exRowFull]
    (.success 1 (tableIdOf "proj")) rfl exRowFull (List.mem_singleton.mpr rfl)

/-- Witness for C9: a concrete resolution keeping the literal entry
unchanged, and two stores that agree on the one referenced name produce the
same resolved document. -/
theorem resolution_one_level_frame_witness :
    (∃ cs',
      (⟨some ⟨some [⟨some [("password", JValue.str "hunter2"),
          ("user", JValue.str "alice")], []⟩], []⟩, []⟩ : ConfigDoc) =
        ⟨some ⟨some cs', []⟩, []⟩ ∧
      List.Forall₂ (fun c c' =>
        c'.rest = c.rest ∧ (c.config = none → c' = c) ∧
        ∀ entries, c.config = some entries →
          ∃ entries', c'.config = some entries' ∧
            List.Forall₂ entryNonRefUnchanged entries entries')
        [exConnector] cs') ∧
    buildConfigWithSecrets exStoreA "proj" exDoc =
      buildConfigWithSecrets exStoreB "proj" exDoc := by
  constructor
  · exact resolution_one_level_frame.1 exStoreOk "proj" exDoc
      ⟨some ⟨some [⟨some [("password", JValue.str "hunter2"),
        ("user", JValue.str "alice")], []⟩], []⟩, []⟩
      ⟨some [exConnector], []⟩ [exConnector] rfl rfl rfl
  · apply resolution_one_level_frame.2
    intro name hn
    have hd : docRefNames "proj" exDoc = [exName0] := rfl
    rw [hd, List.mem_singleton] at hn
    subst hn
    simp [exStoreA, exStoreB]

/-- Witness for C10 at an environment whose config step raises. -/
theorem init_errors_logged_and_reraised_witness :
    initPhase exEnvFail = .loggedAndRaised
      ⟨"ERROR", "Failed during initialization or data fetch",
        exExc.typeName, exExc.text⟩ exExc :=
  init_errors_logged_and_reraised exEnvFail exExc (Or.inl rfl)
